import Mathlib

/-!
Shallow embedding of the gecko admin API service
(src/api/admin/service.go) and of the collaborator interfaces it consumes.

The handlers of `service.go` are translated directly from the Go source.
The collaborators they call (the profiling backend, the chain manager, the
HTTP routing table, the genesis network-name table) are code of the
repository that is not under src/; those are modelled from the spec
(sections 4.2, 4.3, 4.4, 6 of spec.md), and every such definition is marked
`Modelled from the spec:` in its doc comment.

Go machine values are embedded as follows: `version.Version` by its
`String()` rendering (the only use the admin service makes of it),
`ids.ShortID` and `ids.ID` by `Nat`, `uint32` by `Nat` (no arithmetic is
performed on it), `time.Time` by `Nat`, and a Go `(value, error)` return by
a pair whose second component is an `Option Err`.
-/

/-- Error values a collaborator may return: the spec's taxonomy
(NotFound, AlreadyInProgress, NotInProgress, IOError) plus arbitrary
other collaborator errors, kept as distinguishable values so that
pass-through (never wrapping) is expressible. -/
inductive Err where
  | notFound
  | alreadyInProgress
  | notInProgress
  | ioError (file : String)
  | other (code : Nat)
deriving DecidableEq, Repr

/-- Association-list search with decidable string keys, used by the
collaborator models for alias tables. -/
def findKey : List (String × Nat) → String → Option Nat
  | [], _ => none
  | (k, v) :: rest, a => if k = a then some v else findKey rest a

/-- Association-list search for string-valued tables. -/
def findStr : List (String × String) → String → Option String
  | [], _ => none
  | (k, v) :: rest, a => if k = a then some v else findStr rest a

/-- Rendering of an `ids.ID` value, standing in for Go's `bID.String()`.
The zero value 0 stands for the zero-valued `ids.ID` returned by a failed
lookup. -/
def idString (n : Nat) : String := toString n

/-- State of the chain-management collaborator (`chains.Manager`), which is
not under src/. Modelled from the spec: the ChainResolver facade keeps a
mapping from reference strings (canonical renderings and registered
aliases) to canonical chain identifiers. -/
structure ChainManager where
  chainOf : List (String × Nat)
deriving DecidableEq, Repr

/-- Modelled from the spec: `ChainResolver.Lookup(alias) -> (chainID, error)`
(spec section 6); returns NotFound on a lookup miss (section 4.4), with the
zero-valued identifier alongside the error, and is a pure read. -/
def ChainManager.Lookup (m : ChainManager) (a : String) : Nat × Option Err :=
  match findKey m.chainOf a with
  | some cid => (cid, none)
  | none => (0, some .notFound)

/-- Modelled from the spec: `ChainResolver.RegisterAlias(chainID, alias) -> error`
(spec section 6); on success it registers the alias so that future
lookups-by-alias succeed (section 4.3); it fails, mutating nothing, when the
alias is already taken. -/
def ChainManager.Alias (m : ChainManager) (chainID : Nat) (a : String) :
    ChainManager × Option Err :=
  if (findKey m.chainOf a).isSome then (m, some (.other 0))
  else ({ chainOf := (a, chainID) :: m.chainOf }, none)

/-- State of the HTTP routing table (`api.Server`), which is not under
src/. Modelled from the spec: base endpoints plus AliasEntry registrations
{routingPath, aliasName}; many aliases may reference one path; no removal
operation exists. -/
structure RoutingTable where
  endpoints : List String
  routeAliases : List (String × String)
deriving DecidableEq, Repr

/-- Modelled from the spec:
`RoutingTable.RegisterAliasUnderReadIntent(path, alias) -> error`
(spec section 6), the primitive behind `AddAliasesWithReadLock`; it appends
the AliasEntry on success and fails, mutating nothing, when the alias name
is already in use. -/
def RoutingTable.AddAliasesWithReadLock (t : RoutingTable) (path a : String) :
    RoutingTable × Option Err :=
  if t.endpoints.contains a ∨ (findStr t.routeAliases a).isSome then
    (t, some (.other 1))
  else ({ t with routeAliases := (a, path) :: t.routeAliases }, none)

/-- The name a routing-table name resolves to: a base endpoint resolves to
itself, an alias to its registered path. -/
def RoutingTable.resolve (t : RoutingTable) (name : String) : Option String :=
  if t.endpoints.contains name then some name else findStr t.routeAliases name

/-- State of the profiling backend (the `Performance` collaborator), which
is not under src/. Modelled from the spec: a two-state machine, Idle or
CPUProfiling with the currently open output path (spec sections 3, 4.2). -/
inductive ProfilerState where
  | idle
  | cpuProfiling (path : String)
deriving DecidableEq, Repr

/-- Modelled from the spec: `ProfilingBackend.StartCPU(file)` — Idle →
CPUProfiling, opening the target file; fails with AlreadyInProgress if
already CPUProfiling, with IOError if the file cannot be created, and
remains in its pre-call state after any failed attempt (spec sections 4.2,
7). `ioFail` is the environment: the filenames whose creation fails. -/
def Performance.StartCPUProfiler (ioFail : List String) (s : ProfilerState)
    (file : String) : ProfilerState × Option Err :=
  match s with
  | .cpuProfiling p => (.cpuProfiling p, some .alreadyInProgress)
  | .idle =>
    if file ∈ ioFail then (.idle, some (.ioError file))
    else (.cpuProfiling file, none)

/-- Modelled from the spec: `ProfilingBackend.StopCPU()` — CPUProfiling →
Idle, closing the profile output; fails with NotInProgress if Idle (spec
section 4.2). -/
def Performance.StopCPUProfiler (s : ProfilerState) : ProfilerState × Option Err :=
  match s with
  | .idle => (.idle, some .notInProgress)
  | .cpuProfiling _ => (.idle, none)

/-- Modelled from the spec: `ProfilingBackend.DumpHeap(file)` — stateless,
permitted in either profiler state, fails with IOError if the file cannot
be created (spec section 4.2). -/
def Performance.MemoryProfile (ioFail : List String) (s : ProfilerState)
    (file : String) : ProfilerState × Option Err :=
  (s, if file ∈ ioFail then some (.ioError file) else none)

/-- Modelled from the spec: `ProfilingBackend.DumpLockContention(file)` —
same contract as the heap snapshot (spec section 4.2). -/
def Performance.LockProfile (ioFail : List String) (s : ProfilerState)
    (file : String) : ProfilerState × Option Err :=
  (s, if file ∈ ioFail then some (.ioError file) else none)

/-- Modelled from the spec: `genesis.NetworkName`, a pure function mapping
networkID to a human name via a static external lookup table (spec section
4.4); the genesis package is not under src/. -/
def NetworkName (networkID : Nat) : String :=
  match networkID with
  | 1 => "mainnet"
  | 2 => "cascade"
  | 3 => "denali"
  | n => "network-" ++ toString n

/-- A peer record, from src/network/peer_id.go (`PeerID`). Timestamps are
embedded as `Nat`. -/
structure PeerID where
  IP : String
  PublicIP : String
  ID : Nat
  Version : String
  LastSent : Nat
  LastReceived : Nat
deriving DecidableEq, Repr

/-- The value fields of the `Admin` struct of src/api/admin/service.go:
version (by its `String()` rendering), nodeID, networkID. The remaining
fields (log, networking, performance, chainManager, httpServer) are
references to collaborators; the references themselves are never
reassigned, and the referenced collaborator state lives in `ServerState`. -/
structure Admin where
  version : String
  nodeID : Nat
  networkID : Nat
deriving DecidableEq, Repr

/-- The reachable state of one admin server process: the service struct and
the state of each collaborator the handlers can observe or mutate, plus the
environment data the collaborator models consume (`ioFail`: filenames whose
creation fails; `peers`: the network collaborator's current peer snapshot;
`stackDump`: what the stack dumper currently renders). -/
structure ServerState where
  service : Admin
  chainManager : ChainManager
  httpServer : RoutingTable
  profiler : ProfilerState
  ioFail : List String
  peers : List PeerID
  stackDump : String
deriving DecidableEq, Repr

/-- Reply of GetNodeVersion (src/api/admin/service.go). -/
structure GetNodeVersionReply where
  Version : String
deriving DecidableEq, Repr

/-- Reply of GetNodeID. -/
structure GetNodeIDReply where
  NodeID : Nat
deriving DecidableEq, Repr

/-- Reply of GetNetworkID. -/
structure GetNetworkIDReply where
  NetworkID : Nat
deriving DecidableEq, Repr

/-- Reply of GetNetworkName. -/
structure GetNetworkNameReply where
  NetworkName : String
deriving DecidableEq, Repr

/-- Arguments of GetBlockchainID. -/
structure GetBlockchainIDArgs where
  Alias : String
deriving DecidableEq, Repr

/-- Reply of GetBlockchainID. -/
structure GetBlockchainIDReply where
  BlockchainID : String
deriving DecidableEq, Repr

/-- Reply of Peers. -/
structure PeersReply where
  Peers : List PeerID
deriving DecidableEq, Repr

/-- Arguments of StartCPUProfiler. -/
structure StartCPUProfilerArgs where
  Filename : String
deriving DecidableEq, Repr

/-- Reply of StartCPUProfiler. -/
structure StartCPUProfilerReply where
  Success : Bool
deriving DecidableEq, Repr

/-- Reply of StopCPUProfiler. -/
structure StopCPUProfilerReply where
  Success : Bool
deriving DecidableEq, Repr

/-- Arguments of MemoryProfile. -/
structure MemoryProfileArgs where
  Filename : String
deriving DecidableEq, Repr

/-- Reply of MemoryProfile. -/
structure MemoryProfileReply where
  Success : Bool
deriving DecidableEq, Repr

/-- Arguments of LockProfile. -/
structure LockProfileArgs where
  Filename : String
deriving DecidableEq, Repr

/-- Reply of LockProfile. -/
structure LockProfileReply where
  Success : Bool
deriving DecidableEq, Repr

/-- Arguments of Alias. -/
structure AliasArgs where
  Endpoint : String
  Alias : String
deriving DecidableEq, Repr

/-- Reply of Alias. -/
structure AliasReply where
  Success : Bool
deriving DecidableEq, Repr

/-- Arguments of AliasChain. -/
structure AliasChainArgs where
  Chain : String
  Alias : String
deriving DecidableEq, Repr

/-- Reply of AliasChain. -/
structure AliasChainReply where
  Success : Bool
deriving DecidableEq, Repr

/-- Reply of Stacktrace. -/
structure StacktraceReply where
  Stacktrace : String
deriving DecidableEq, Repr

/-- `GetNodeVersion` (src/api/admin/service.go): writes
`service.version.String()` into the reply, returns nil. The handler takes
the reply value it was handed (the transport allocates it zero-valued) and
returns the post-call state, the final reply, and the Go error. -/
def Admin.GetNodeVersion (s : ServerState) (reply : GetNodeVersionReply) :
    ServerState × GetNodeVersionReply × Option Err :=
  (s, { reply with Version := s.service.version }, none)

/-- `GetNodeID`: writes `service.nodeID` into the reply, returns nil. -/
def Admin.GetNodeID (s : ServerState) (reply : GetNodeIDReply) :
    ServerState × GetNodeIDReply × Option Err :=
  (s, { reply with NodeID := s.service.nodeID }, none)

/-- `GetNetworkID`: writes `service.networkID` into the reply, returns nil. -/
def Admin.GetNetworkID (s : ServerState) (reply : GetNetworkIDReply) :
    ServerState × GetNetworkIDReply × Option Err :=
  (s, { reply with NetworkID := s.service.networkID }, none)

/-- `GetNetworkName`: writes `genesis.NetworkName(service.networkID)` into
the reply, returns nil. -/
def Admin.GetNetworkName (s : ServerState) (reply : GetNetworkNameReply) :
    ServerState × GetNetworkNameReply × Option Err :=
  (s, { reply with NetworkName := NetworkName s.service.networkID }, none)

/-- `GetBlockchainID`: `bID, err := service.chainManager.Lookup(args.Alias);
reply.BlockchainID = bID.String(); return err`. -/
def Admin.GetBlockchainID (s : ServerState) (args : GetBlockchainIDArgs)
    (reply : GetBlockchainIDReply) :
    ServerState × GetBlockchainIDReply × Option Err :=
  let (bID, err) := s.chainManager.Lookup args.Alias
  (s, { reply with BlockchainID := idString bID }, err)

/-- `Peers`: `reply.Peers = service.networking.Peers(); return nil`; the
network collaborator hands back a point-in-time snapshot. -/
def Admin.Peers (s : ServerState) (reply : PeersReply) :
    ServerState × PeersReply × Option Err :=
  (s, { reply with Peers := s.peers }, none)

/-- `StartCPUProfiler`: `reply.Success = true; return
service.performance.StartCPUProfiler(args.Filename)`. -/
def Admin.StartCPUProfiler (s : ServerState) (args : StartCPUProfilerArgs)
    (reply : StartCPUProfilerReply) :
    ServerState × StartCPUProfilerReply × Option Err :=
  let reply := { reply with Success := true }
  let (p, err) := Performance.StartCPUProfiler s.ioFail s.profiler args.Filename
  ({ s with profiler := p }, reply, err)

/-- `StopCPUProfiler`: `reply.Success = true; return
service.performance.StopCPUProfiler()`. -/
def Admin.StopCPUProfiler (s : ServerState) (reply : StopCPUProfilerReply) :
    ServerState × StopCPUProfilerReply × Option Err :=
  let reply := { reply with Success := true }
  let (p, err) := Performance.StopCPUProfiler s.profiler
  ({ s with profiler := p }, reply, err)

/-- `MemoryProfile`: `reply.Success = true; return
service.performance.MemoryProfile(args.Filename)`. -/
def Admin.MemoryProfile (s : ServerState) (args : MemoryProfileArgs)
    (reply : MemoryProfileReply) :
    ServerState × MemoryProfileReply × Option Err :=
  let reply := { reply with Success := true }
  let (p, err) := Performance.MemoryProfile s.ioFail s.profiler args.Filename
  ({ s with profiler := p }, reply, err)

/-- `LockProfile`: `reply.Success = true; return
service.performance.LockProfile(args.Filename)`. -/
def Admin.LockProfile (s : ServerState) (args : LockProfileArgs)
    (reply : LockProfileReply) :
    ServerState × LockProfileReply × Option Err :=
  let reply := { reply with Success := true }
  let (p, err) := Performance.LockProfile s.ioFail s.profiler args.Filename
  ({ s with profiler := p }, reply, err)

/-- `Alias`: `reply.Success = true; return
service.httpServer.AddAliasesWithReadLock(args.Endpoint, args.Alias)`. -/
def Admin.Alias (s : ServerState) (args : AliasArgs) (reply : AliasReply) :
    ServerState × AliasReply × Option Err :=
  let reply := { reply with Success := true }
  let (t, err) := s.httpServer.AddAliasesWithReadLock args.Endpoint args.Alias
  ({ s with httpServer := t }, reply, err)

/-- `AliasChain`: looks up the chain reference, returning the lookup error
as-is on failure; registers the alias with the chain manager, returning its
error as-is on failure; then sets `reply.Success = true` and returns the
result of registering the routing alias
`AddAliasesWithReadLock("bc/"+chainID.String(), "bc/"+args.Alias)`. -/
def Admin.AliasChain (s : ServerState) (args : AliasChainArgs)
    (reply : AliasChainReply) :
    ServerState × AliasChainReply × Option Err :=
  match s.chainManager.Lookup args.Chain with
  | (_, some err) => (s, reply, some err)
  | (chainID, none) =>
    match s.chainManager.Alias chainID args.Alias with
    | (_, some err) => (s, reply, some err)
    | (cm, none) =>
      let s := { s with chainManager := cm }
      let reply := { reply with Success := true }
      let (t, err) := s.httpServer.AddAliasesWithReadLock
        ("bc/" ++ idString chainID) ("bc/" ++ args.Alias)
      ({ s with httpServer := t }, reply, err)

/-- `Stacktrace`: writes the global stack rendering into the reply, returns
nil; the dump itself comes from the logging collaborator. -/
def Admin.Stacktrace (s : ServerState) (reply : StacktraceReply) :
    ServerState × StacktraceReply × Option Err :=
  (s, { reply with Stacktrace := s.stackDump }, none)

/-- One admin operation together with its decoded arguments, as dispatched
by the request router of service.go. -/
inductive AdminOp where
  | getNodeVersion
  | getNodeID
  | getNetworkID
  | getNetworkName
  | getBlockchainID (a : String)
  | peersOp
  | startCPUProfiler (file : String)
  | stopCPUProfiler
  | memoryProfile (file : String)
  | lockProfile (file : String)
  | aliasOp (endpoint a : String)
  | aliasChain (chain a : String)
  | stacktraceOp
deriving DecidableEq, Repr

/-- Dispatch one admin operation against the server state, handing the
handler a zero-valued reply as the transport does, and keep the post-call
state and the returned Go error. -/
def step (s : ServerState) : AdminOp → ServerState × Option Err
  | .getNodeVersion => let (s', _, e) := Admin.GetNodeVersion s ⟨""⟩; (s', e)
  | .getNodeID => let (s', _, e) := Admin.GetNodeID s ⟨0⟩; (s', e)
  | .getNetworkID => let (s', _, e) := Admin.GetNetworkID s ⟨0⟩; (s', e)
  | .getNetworkName => let (s', _, e) := Admin.GetNetworkName s ⟨""⟩; (s', e)
  | .getBlockchainID a => let (s', _, e) := Admin.GetBlockchainID s ⟨a⟩ ⟨""⟩; (s', e)
  | .peersOp => let (s', _, e) := Admin.Peers s ⟨[]⟩; (s', e)
  | .startCPUProfiler f => let (s', _, e) := Admin.StartCPUProfiler s ⟨f⟩ ⟨false⟩; (s', e)
  | .stopCPUProfiler => let (s', _, e) := Admin.StopCPUProfiler s ⟨false⟩; (s', e)
  | .memoryProfile f => let (s', _, e) := Admin.MemoryProfile s ⟨f⟩ ⟨false⟩; (s', e)
  | .lockProfile f => let (s', _, e) := Admin.LockProfile s ⟨f⟩ ⟨false⟩; (s', e)
  | .aliasOp ep a => let (s', _, e) := Admin.Alias s ⟨ep, a⟩ ⟨false⟩; (s', e)
  | .aliasChain c a => let (s', _, e) := Admin.AliasChain s ⟨c, a⟩ ⟨false⟩; (s', e)
  | .stacktraceOp => let (s', _, e) := Admin.Stacktrace s ⟨""⟩; (s', e)

/-- Run a sequence of admin operations, keeping only the final state. -/
def run (s : ServerState) : List AdminOp → ServerState
  | [] => s
  | op :: ops => run (step s op).1 ops

/-- A CPU-profiler call: StartCPUProfiler with its filename, or
StopCPUProfiler. -/
inductive ProfOp where
  | start (file : String)
  | stop
deriving DecidableEq, Repr

/-- The admin operation a profiler call dispatches to. -/
def ProfOp.toOp : ProfOp → AdminOp
  | .start f => .startCPUProfiler f
  | .stop => .stopCPUProfiler

/-- Dispatch one profiler call through the admin service handlers. -/
def stepProf (s : ServerState) (p : ProfOp) : ServerState × Option Err :=
  step s p.toOp

/-- The trace of a sequence of profiler calls: each call paired with the
Go error it returned. -/
def profTrace (s : ServerState) : List ProfOp → List (ProfOp × Option Err)
  | [] => []
  | p :: ps => (p, (stepProf s p).2) :: profTrace (stepProf s p).1 ps

/-- The all-or-nothing property claimed for AliasChain at one input: the
call either succeeds, or its failure has not left the chain-manager alias
registration in place alone (with the routing table untouched). -/
def aliasChainAllOrNothing (s : ServerState) (c a : String) : Prop :=
  (Admin.AliasChain s ⟨c, a⟩ ⟨false⟩).2.2 = none ∨
    ¬((Admin.AliasChain s ⟨c, a⟩ ⟨false⟩).1.chainManager ≠ s.chainManager ∧
      (Admin.AliasChain s ⟨c, a⟩ ⟨false⟩).1.httpServer = s.httpServer)

/-- A concrete server state used to evaluate the theorems: chain "C" has
canonical ID 42 and its endpoint `bc/42` is routed; the chain alias
"taken" and the routing alias `bc/A` are already in use. -/
def w0 : ServerState :=
  { service := { version := "0.5.7", nodeID := 7, networkID := 1 }
    chainManager := { chainOf := [("C", 42), ("taken", 5)] }
    httpServer := { endpoints := ["bc/42", "ext/info"]
                    routeAliases := [("bc/A", "ext/info")] }
    profiler := .idle
    ioFail := ["/bad.prof"]
    peers := []
    stackDump := "stack" }

/-- A concrete server state like `w0` but with no routing alias taken, so
that AliasChain can complete both registrations. -/
def w1 : ServerState :=
  { w0 with httpServer := { endpoints := ["bc/42"], routeAliases := [] } }

/-- No dispatched operation writes to the service struct. -/
theorem step_service (s : ServerState) (op : AdminOp) :
    (step s op).1.service = s.service := by
  cases op <;>
    simp only [step, Admin.GetNodeVersion, Admin.GetNodeID, Admin.GetNetworkID,
      Admin.GetNetworkName, Admin.GetBlockchainID, Admin.Peers,
      Admin.StartCPUProfiler, Admin.StopCPUProfiler, Admin.MemoryProfile,
      Admin.LockProfile, Admin.Alias, Admin.AliasChain, Admin.Stacktrace]
  all_goals
    first
      | rfl
      | (split <;> rfl)
      | (split <;> first | rfl | (split <;> rfl))

/-- No sequence of dispatched operations writes to the service struct. -/
theorem run_service (s : ServerState) (ops : List AdminOp) :
    (run s ops).service = s.service := by
  induction ops generalizing s with
  | nil => rfl
  | cons op ops ih => rw [run, ih, step_service]

/-- A Start while CPUProfiling fails with AlreadyInProgress and leaves the
whole server state unchanged. -/
theorem stepProf_start_busy (s : ServerState) (f path : String)
    (h : s.profiler = .cpuProfiling path) :
    stepProf s (.start f) = (s, some .alreadyInProgress) := by
  cases s with
  | mk sv cm ht pr io pe st =>
    dsimp only at h
    subst h
    rfl

/-- A Start from Idle on a writable file succeeds and moves the profiler to
CPUProfiling on that file. -/
theorem stepProf_start_idle_ok (s : ServerState) (f : String)
    (h : s.profiler = .idle) (hio : f ∉ s.ioFail) :
    stepProf s (.start f) = ({ s with profiler := .cpuProfiling f }, none) := by
  cases s with
  | mk sv cm ht pr io pe st =>
    dsimp only at h hio
    subst h
    simp [stepProf, ProfOp.toOp, step, Admin.StartCPUProfiler,
      Performance.StartCPUProfiler, hio]

/-- A Start from Idle on an unwritable file fails with IOError and leaves
the state unchanged. -/
theorem stepProf_start_idle_io (s : ServerState) (f : String)
    (h : s.profiler = .idle) (hio : f ∈ s.ioFail) :
    stepProf s (.start f) = (s, some (.ioError f)) := by
  cases s with
  | mk sv cm ht pr io pe st =>
    dsimp only at h hio
    subst h
    simp [stepProf, ProfOp.toOp, step, Admin.StartCPUProfiler,
      Performance.StartCPUProfiler, hio]

/-- A Stop while Idle fails with NotInProgress and leaves the state
unchanged. -/
theorem stepProf_stop_idle (s : ServerState) (h : s.profiler = .idle) :
    stepProf s .stop = (s, some .notInProgress) := by
  cases s with
  | mk sv cm ht pr io pe st =>
    dsimp only at h
    subst h
    rfl

/-- A Stop while CPUProfiling succeeds and moves the profiler to Idle. -/
theorem stepProf_stop_busy (s : ServerState) (path : String)
    (h : s.profiler = .cpuProfiling path) :
    stepProf s .stop = ({ s with profiler := .idle }, none) := by
  cases s with
  | mk sv cm ht pr io pe st =>
    dsimp only at h
    subst h
    rfl

/-- Any failed profiler call leaves the whole server state unchanged. -/
theorem stepProf_fail_frame (s : ServerState) (p : ProfOp) (e : Err)
    (h : (stepProf s p).2 = some e) : (stepProf s p).1 = s := by
  cases p with
  | start f =>
    cases hp : s.profiler with
    | idle =>
      by_cases hio : f ∈ s.ioFail
      · rw [stepProf_start_idle_io s f hp hio]
      · rw [stepProf_start_idle_ok s f hp hio] at h
        simp at h
    | cpuProfiling path => rw [stepProf_start_busy s f path hp]
  | stop =>
    cases hp : s.profiler with
    | idle => rw [stepProf_stop_idle s hp]
    | cpuProfiling path =>
      rw [stepProf_stop_busy s path hp] at h
      simp at h

/-- A successful Start leaves the profiler in CPUProfiling on the requested
file. -/
theorem stepProf_start_ok (s : ServerState) (f : String)
    (h : (stepProf s (.start f)).2 = none) :
    (stepProf s (.start f)).1.profiler = .cpuProfiling f := by
  cases hp : s.profiler with
  | idle =>
    by_cases hio : f ∈ s.ioFail
    · rw [stepProf_start_idle_io s f hp hio] at h
      simp at h
    · rw [stepProf_start_idle_ok s f hp hio]
  | cpuProfiling path =>
    rw [stepProf_start_busy s f path hp] at h
    simp at h

/-- A successful Stop leaves the profiler Idle. -/
theorem stepProf_stop_ok (s : ServerState)
    (h : (stepProf s .stop).2 = none) :
    (stepProf s .stop).1.profiler = .idle := by
  cases hp : s.profiler with
  | idle =>
    rw [stepProf_stop_idle s hp] at h
    simp at h
  | cpuProfiling path => rw [stepProf_stop_busy s path hp]

/-- While the profiler is CPUProfiling, no Start in the trace succeeds
before some Stop has succeeded. -/
theorem trace_start_needs_stop (ops : List ProfOp) :
    ∀ (s : ServerState) (path : String), s.profiler = .cpuProfiling path →
      ∀ (j : Nat) (g : String),
        (profTrace s ops).get? j = some (.start g, none) →
        ∃ k, k < j ∧ (profTrace s ops).get? k = some (.stop, none) := by
  induction ops with
  | nil =>
    intro s path _ j g hj
    simp [profTrace] at hj
  | cons p ps ih =>
    intro s path hprof j g hj
    cases p with
    | start f =>
      simp only [profTrace, stepProf_start_busy s f path hprof] at hj ⊢
      cases j with
      | zero => simp at hj
      | succ j' =>
        obtain ⟨k, hk, hkt⟩ := ih s path hprof j' g (by simpa using hj)
        exact ⟨k + 1, by omega, by simpa using hkt⟩
    | stop =>
      simp only [profTrace, stepProf_stop_busy s path hprof] at hj ⊢
      cases j with
      | zero => simp at hj
      | succ j' => exact ⟨0, by omega, by simp⟩

/-- Between any two successful Starts in a profiler trace there is a
successful Stop. -/
theorem trace_two_starts (ops : List ProfOp) :
    ∀ (s : ServerState) (i j : Nat) (f g : String), i < j →
      (profTrace s ops).get? i = some (.start f, none) →
      (profTrace s ops).get? j = some (.start g, none) →
      ∃ k, i < k ∧ k < j ∧ (profTrace s ops).get? k = some (.stop, none) := by
  induction ops with
  | nil =>
    intro s i j f g hij hi hj
    simp [profTrace] at hi
  | cons p ps ih =>
    intro s i j f g hij hi hj
    simp only [profTrace] at hi hj ⊢
    cases i with
    | zero =>
      simp only [List.get?_cons_zero, Option.some.injEq, Prod.mk.injEq] at hi
      obtain ⟨hpf, he⟩ := hi
      subst hpf
      obtain ⟨j', rfl⟩ : ∃ j', j = j' + 1 := ⟨j - 1, by omega⟩
      obtain ⟨k, hk, hkt⟩ := trace_start_needs_stop ps (stepProf s (.start f)).1 f
        (stepProf_start_ok s f he) j' g (by simpa using hj)
      exact ⟨k + 1, by omega, by omega, by simpa using hkt⟩
    | succ i' =>
      obtain ⟨j', rfl⟩ : ∃ j', j = j' + 1 := ⟨j - 1, by omega⟩
      obtain ⟨k, h1, h2, h3⟩ := ih (stepProf s p).1 i' j' f g (by omega)
        (by simpa using hi) (by simpa using hj)
      exact ⟨k + 1, by omega, by omega, by simpa using h3⟩

/-- Key found at the head of an association list. -/
theorem findKey_cons_self (l : List (String × Nat)) (a : String) (cid : Nat) :
    findKey ((a, cid) :: l) a = some cid := by
  simp [findKey]

/-- Shape of a successful chain-manager alias registration: the new mapping
is prepended and the alias was previously free. -/
theorem alias_ok_shape (m : ChainManager) (cid : Nat) (a : String)
    (cm : ChainManager) (h : m.Alias cid a = (cm, none)) :
    cm = ⟨(a, cid) :: m.chainOf⟩ ∧ findKey m.chainOf a = none := by
  simp only [ChainManager.Alias] at h
  split at h
  · simp at h
  · rename_i hk
    simp only [Prod.mk.injEq, and_true] at h
    refine ⟨h.symm, ?_⟩
    cases hfk : findKey m.chainOf a with
    | none => rfl
    | some v =>
      rw [hfk] at hk
      exact absurd rfl hk

/-- Shape of a successful routing-table alias registration: the AliasEntry
is prepended and the alias name was previously free. -/
theorem addAliases_ok_shape (t : RoutingTable) (path a : String)
    (t' : RoutingTable) (h : t.AddAliasesWithReadLock path a = (t', none)) :
    t' = { t with routeAliases := (a, path) :: t.routeAliases } ∧
      t.endpoints.contains a = false ∧ findStr t.routeAliases a = none := by
  simp only [RoutingTable.AddAliasesWithReadLock] at h
  split at h
  · simp at h
  · rename_i hk
    simp only [Prod.mk.injEq, and_true] at h
    push_neg at hk
    obtain ⟨hk1, hk2⟩ := hk
    refine ⟨h.symm, by simpa using hk1, ?_⟩
    cases hfk : findStr t.routeAliases a with
    | none => rfl
    | some v =>
      rw [hfk] at hk2
      exact absurd rfl hk2

/-- A failed routing-table alias registration mutates nothing. -/
theorem addAliases_fail_shape (t : RoutingTable) (path a : String) (e : Err)
    (h : (t.AddAliasesWithReadLock path a).2 = some e) :
    t.AddAliasesWithReadLock path a = (t, some e) := by
  simp only [RoutingTable.AddAliasesWithReadLock] at h ⊢
  split at h
  · rename_i hk
    rw [if_pos hk]
    simp only [Option.some.injEq] at h
    rw [h]
  · simp at h

/-- Claim C1 fails on the code at a concrete input: with chain "C"
resolving to 42 and the routing alias `bc/A` already taken, AliasChain
reports failure yet has silently left the chain-manager registration of
"A" in place alone, the routing table untouched. -/
theorem C1_counterexample : ¬ aliasChainAllOrNothing w0 "C" "A" := by
  unfold aliasChainAllOrNothing
  decide

/-- Claim C1, amended: AliasChain is not all-or-nothing. When the chain
reference resolves, the chain-manager alias registration succeeds, and the
routing-table registration then fails, AliasChain returns the routing
error while the chain-manager alias registration remains in effect and the
routing table is unchanged — no compensating rollback is performed. -/
theorem C1_no_rollback (s : ServerState) (c a : String) (r : AliasChainReply)
    (cid : Nat) (cm : ChainManager) (e : Err)
    (h1 : s.chainManager.Lookup c = (cid, none))
    (h2 : s.chainManager.Alias cid a = (cm, none))
    (h3 : (s.httpServer.AddAliasesWithReadLock
        ("bc/" ++ idString cid) ("bc/" ++ a)).2 = some e) :
    (Admin.AliasChain s ⟨c, a⟩ r).2.2 = some e ∧
    (Admin.AliasChain s ⟨c, a⟩ r).1.chainManager = cm ∧
    findKey cm.chainOf a = some cid ∧
    (Admin.AliasChain s ⟨c, a⟩ r).1.httpServer = s.httpServer := by
  have hAdd := addAliases_fail_shape s.httpServer ("bc/" ++ idString cid)
    ("bc/" ++ a) e h3
  obtain ⟨hcm, -⟩ := alias_ok_shape s.chainManager cid a cm h2
  subst hcm
  refine ⟨?_, ?_, findKey_cons_self _ _ _, ?_⟩ <;>
    simp [Admin.AliasChain, h1, h2, hAdd]

/-- Witness for the amended claim C1 at the concrete input of the
counterexample. -/
theorem C1_witness :
    (Admin.AliasChain w0 ⟨"C", "A"⟩ ⟨false⟩).2.2 = some (.other 1) ∧
    (Admin.AliasChain w0 ⟨"C", "A"⟩ ⟨false⟩).1.chainManager =
      ⟨[("A", 42), ("C", 42), ("taken", 5)]⟩ ∧
    findKey [("A", 42), ("C", 42), ("taken", 5)] "A" = some 42 ∧
    (Admin.AliasChain w0 ⟨"C", "A"⟩ ⟨false⟩).1.httpServer = w0.httpServer :=
  C1_no_rollback w0 "C" "A" ⟨false⟩ 42 ⟨[("A", 42), ("C", 42), ("taken", 5)]⟩
    (.other 1) (by decide) (by decide) (by decide)

/-- Claim C4: AliasChain first resolves the chain reference; if resolution
fails it performs no registration of any kind and passes the error
through; otherwise it registers the alias with the chain resolver and then
registers the routing alias making `bc/<alias>` an additional name for
`bc/<canonicalID>`, so that (given the chain's endpoint is routed) both
names resolve to the same underlying handler path. -/
theorem C4_alias_chain_sequence (s : ServerState) (c a : String)
    (r : AliasChainReply) :
    ((s.chainManager.Lookup c).2.isSome →
      Admin.AliasChain s ⟨c, a⟩ r = (s, r, (s.chainManager.Lookup c).2)) ∧
    (∀ (cid : Nat) (cm : ChainManager) (t : RoutingTable),
      s.chainManager.Lookup c = (cid, none) →
      s.chainManager.Alias cid a = (cm, none) →
      s.httpServer.AddAliasesWithReadLock
        ("bc/" ++ idString cid) ("bc/" ++ a) = (t, none) →
      Admin.AliasChain s ⟨c, a⟩ r =
        ({ s with chainManager := cm, httpServer := t },
          { r with Success := true }, none) ∧
      findKey cm.chainOf a = some cid ∧
      (("bc/" ++ idString cid) ∈ s.httpServer.endpoints →
        t.resolve ("bc/" ++ a) = some ("bc/" ++ idString cid) ∧
        t.resolve ("bc/" ++ idString cid) = some ("bc/" ++ idString cid))) := by
  constructor
  · intro h
    rcases hl : s.chainManager.Lookup c with ⟨cid, er⟩
    rw [hl] at h
    cases er with
    | none => simp at h
    | some e => simp [Admin.AliasChain, hl]
  · intro cid cm t h1 h2 h3
    obtain ⟨hcm, -⟩ := alias_ok_shape s.chainManager cid a cm h2
    obtain ⟨ht, hep, hfs⟩ := addAliases_ok_shape s.httpServer
      ("bc/" ++ idString cid) ("bc/" ++ a) t h3
    refine ⟨by simp [Admin.AliasChain, h1, h2, h3], ?_, ?_⟩
    · rw [hcm]
      exact findKey_cons_self _ _ _
    · intro hend
      subst ht
      have hnotin : "bc/" ++ a ∉ s.httpServer.endpoints := by
        simpa using hep
      constructor
      · simp [RoutingTable.resolve, hnotin, findStr]
      · simp only [RoutingTable.resolve]
        rw [if_pos (by simpa using hend)]

/-- Witness for claim C4 at a concrete input on which both registrations
succeed. -/
theorem C4_witness :
    Admin.AliasChain w1 ⟨"C", "A"⟩ ⟨false⟩ =
      ({ w1 with
          chainManager := ⟨[("A", 42), ("C", 42), ("taken", 5)]⟩
          httpServer := ⟨["bc/42"], [("bc/A", "bc/42")]⟩ },
        ⟨true⟩, none) ∧
    findKey [("A", 42), ("C", 42), ("taken", 5)] "A" = some 42 ∧
    (RoutingTable.mk ["bc/42"] [("bc/A", "bc/42")]).resolve ("bc/" ++ "A") =
      some ("bc/" ++ idString 42) ∧
    (RoutingTable.mk ["bc/42"] [("bc/A", "bc/42")]).resolve
      ("bc/" ++ idString 42) = some ("bc/" ++ idString 42) := by
  have h := (C4_alias_chain_sequence w1 "C" "A" ⟨false⟩).2 42
    ⟨[("A", 42), ("C", 42), ("taken", 5)]⟩ ⟨["bc/42"], [("bc/A", "bc/42")]⟩
    (by decide) (by decide) (by decide)
  exact ⟨h.1, h.2.1, (h.2.2 (by decide)).1, (h.2.2 (by decide)).2⟩

/-- Claim C2: for any sequence of StartCPUProfiler/StopCPUProfiler calls,
between any two successful Starts there is a successful Stop (so at most
one Start succeeds without one); a Start while CPUProfiling fails with
AlreadyInProgress, a Stop while Idle fails with NotInProgress, a
successful Stop returns the profiler to Idle, and any failed transition
attempt leaves the whole server state — the profiler state included —
equal to its pre-call state. -/
theorem C2_cpu_profiler_transitions :
    (∀ (ops : List ProfOp) (s : ServerState) (i j : Nat) (f g : String),
      i < j →
      (profTrace s ops).get? i = some (.start f, none) →
      (profTrace s ops).get? j = some (.start g, none) →
      ∃ k, i < k ∧ k < j ∧ (profTrace s ops).get? k = some (.stop, none)) ∧
    (∀ (s : ServerState) (path f : String), s.profiler = .cpuProfiling path →
      stepProf s (.start f) = (s, some .alreadyInProgress)) ∧
    (∀ (s : ServerState), s.profiler = .idle →
      stepProf s .stop = (s, some .notInProgress)) ∧
    (∀ (s : ServerState), (stepProf s .stop).2 = none →
      (stepProf s .stop).1.profiler = .idle) ∧
    (∀ (s : ServerState) (p : ProfOp) (e : Err),
      (stepProf s p).2 = some e → (stepProf s p).1 = s) :=
  ⟨trace_two_starts,
   fun s path f h => stepProf_start_busy s f path h,
   stepProf_stop_idle,
   stepProf_stop_ok,
   stepProf_fail_frame⟩

/-- Witness for claim C2 at concrete inputs: a trace with two successful
Starts separated by a Stop, a rejected Start while profiling, a rejected
Stop while Idle, and an unchanged state after a failed Stop. -/
theorem C2_witness :
    (∃ k, 0 < k ∧ k < 2 ∧
      (profTrace w0 [.start "a", .stop, .start "b"]).get? k =
        some (.stop, none)) ∧
    stepProf { w0 with profiler := .cpuProfiling "a" } (.start "x") =
      ({ w0 with profiler := .cpuProfiling "a" }, some .alreadyInProgress) ∧
    stepProf w0 .stop = (w0, some .notInProgress) ∧
    (stepProf { w0 with profiler := .cpuProfiling "a" } .stop).1.profiler =
      .idle ∧
    (stepProf w0 .stop).1 = w0 :=
  ⟨C2_cpu_profiler_transitions.1 [.start "a", .stop, .start "b"] w0 0 2 "a" "b"
      (by decide) (by decide) (by decide),
   C2_cpu_profiler_transitions.2.1 { w0 with profiler := .cpuProfiling "a" }
      "a" "x" (by decide),
   C2_cpu_profiler_transitions.2.2.1 w0 (by decide),
   C2_cpu_profiler_transitions.2.2.2.1 { w0 with profiler := .cpuProfiling "a" }
      (by decide),
   C2_cpu_profiler_transitions.2.2.2.2 w0 .stop .notInProgress (by decide)⟩

/-- Claim C3: every handler returns the collaborator's error value exactly
as the collaborator produced it — the profiler handlers return the
profiling backend's error, Alias returns the routing table's error,
GetBlockchainID returns the chain manager's lookup error, and AliasChain
returns, unmodified, whichever collaborator error stopped it. -/
theorem C3_collaborator_errors_verbatim (s : ServerState) :
    (∀ (a : String) (r : GetBlockchainIDReply),
      (Admin.GetBlockchainID s ⟨a⟩ r).2.2 = (s.chainManager.Lookup a).2) ∧
    (∀ (f : String) (r : StartCPUProfilerReply),
      (Admin.StartCPUProfiler s ⟨f⟩ r).2.2 =
        (Performance.StartCPUProfiler s.ioFail s.profiler f).2) ∧
    (∀ (r : StopCPUProfilerReply),
      (Admin.StopCPUProfiler s r).2.2 =
        (Performance.StopCPUProfiler s.profiler).2) ∧
    (∀ (f : String) (r : MemoryProfileReply),
      (Admin.MemoryProfile s ⟨f⟩ r).2.2 =
        (Performance.MemoryProfile s.ioFail s.profiler f).2) ∧
    (∀ (f : String) (r : LockProfileReply),
      (Admin.LockProfile s ⟨f⟩ r).2.2 =
        (Performance.LockProfile s.ioFail s.profiler f).2) ∧
    (∀ (ep a : String) (r : AliasReply),
      (Admin.Alias s ⟨ep, a⟩ r).2.2 =
        (s.httpServer.AddAliasesWithReadLock ep a).2) ∧
    (∀ (c a : String) (r : AliasChainReply) (e : Err),
      (s.chainManager.Lookup c).2 = some e →
      (Admin.AliasChain s ⟨c, a⟩ r).2.2 = some e) ∧
    (∀ (c a : String) (r : AliasChainReply) (cid : Nat) (e : Err),
      s.chainManager.Lookup c = (cid, none) →
      (s.chainManager.Alias cid a).2 = some e →
      (Admin.AliasChain s ⟨c, a⟩ r).2.2 = some e) ∧
    (∀ (c a : String) (r : AliasChainReply) (cid : Nat) (cm : ChainManager),
      s.chainManager.Lookup c = (cid, none) →
      s.chainManager.Alias cid a = (cm, none) →
      (Admin.AliasChain s ⟨c, a⟩ r).2.2 =
        (s.httpServer.AddAliasesWithReadLock
          ("bc/" ++ idString cid) ("bc/" ++ a)).2) := by
  refine ⟨fun a r => rfl, fun f r => rfl, fun r => rfl, fun f r => rfl,
    fun f r => rfl, fun ep a r => rfl, ?_, ?_, ?_⟩
  · intro c a r e h
    rcases hl : s.chainManager.Lookup c with ⟨cid, er⟩
    rw [hl] at h
    dsimp only at h
    subst h
    simp [Admin.AliasChain, hl]
  · intro c a r cid e h1 h2
    rcases ha : s.chainManager.Alias cid a with ⟨cm, er⟩
    rw [ha] at h2
    dsimp only at h2
    subst h2
    simp [Admin.AliasChain, h1, ha]
  · intro c a r cid cm h1 h2
    simp [Admin.AliasChain, h1, h2]

/-- Witness for claim C3 at concrete inputs exercising each conditional
pass-through of AliasChain. -/
theorem C3_witness :
    (Admin.AliasChain w0 ⟨"missing", "A"⟩ ⟨false⟩).2.2 = some .notFound ∧
    (Admin.AliasChain w0 ⟨"C", "taken"⟩ ⟨false⟩).2.2 = some (.other 0) ∧
    (Admin.AliasChain w0 ⟨"C", "A"⟩ ⟨false⟩).2.2 =
      (w0.httpServer.AddAliasesWithReadLock
        ("bc/" ++ idString 42) ("bc/" ++ "A")).2 :=
  ⟨(C3_collaborator_errors_verbatim w0).2.2.2.2.2.2.1 "missing" "A" ⟨false⟩
      .notFound (by decide),
   (C3_collaborator_errors_verbatim w0).2.2.2.2.2.2.2.1 "C" "taken" ⟨false⟩
      42 (.other 0) (by decide) (by decide),
   (C3_collaborator_errors_verbatim w0).2.2.2.2.2.2.2.2 "C" "A" ⟨false⟩
      42 ⟨[("A", 42), ("C", 42), ("taken", 5)]⟩ (by decide) (by decide)⟩

/-- Claim C5: GetBlockchainID on an alias that is not registered returns
the chain resolver's NotFound error passed through, renders the zero
identifier into the reply, and leaves the entire server state unchanged. -/
theorem C5_lookup_miss_no_side_effects (s : ServerState) (a : String)
    (r : GetBlockchainIDReply)
    (h : findKey s.chainManager.chainOf a = none) :
    Admin.GetBlockchainID s ⟨a⟩ r = (s, ⟨idString 0⟩, some .notFound) := by
  simp [Admin.GetBlockchainID, ChainManager.Lookup, h]

/-- Witness for claim C5 at a concrete unregistered alias. -/
theorem C5_witness :
    Admin.GetBlockchainID w0 ⟨"missing"⟩ ⟨""⟩ =
      (w0, ⟨idString 0⟩, some .notFound) :=
  C5_lookup_miss_no_side_effects w0 "missing" ⟨""⟩ (by decide)

/-- Claim C6: GetNodeVersion, GetNodeID, GetNetworkID, and GetNetworkName
are idempotent pure reads: a call made after any interleaved sequence of
admin operations returns the same reply as a call made before it, and each
call leaves the server state unchanged and returns no error. -/
theorem C6_identity_getters_idempotent (s : ServerState) (ops : List AdminOp)
    (r1 : GetNodeVersionReply) (r2 : GetNodeIDReply)
    (r3 : GetNetworkIDReply) (r4 : GetNetworkNameReply) :
    ((Admin.GetNodeVersion (run s ops) r1).2.1 =
        (Admin.GetNodeVersion s r1).2.1 ∧
      (Admin.GetNodeVersion s r1).1 = s ∧
      (Admin.GetNodeVersion s r1).2.2 = none) ∧
    ((Admin.GetNodeID (run s ops) r2).2.1 = (Admin.GetNodeID s r2).2.1 ∧
      (Admin.GetNodeID s r2).1 = s ∧
      (Admin.GetNodeID s r2).2.2 = none) ∧
    ((Admin.GetNetworkID (run s ops) r3).2.1 = (Admin.GetNetworkID s r3).2.1 ∧
      (Admin.GetNetworkID s r3).1 = s ∧
      (Admin.GetNetworkID s r3).2.2 = none) ∧
    ((Admin.GetNetworkName (run s ops) r4).2.1 =
        (Admin.GetNetworkName s r4).2.1 ∧
      (Admin.GetNetworkName s r4).1 = s ∧
      (Admin.GetNetworkName s r4).2.2 = none) := by
  refine ⟨⟨?_, rfl, rfl⟩, ⟨?_, rfl, rfl⟩, ⟨?_, rfl, rfl⟩, ⟨?_, rfl, rfl⟩⟩ <;>
    simp [Admin.GetNodeVersion, Admin.GetNodeID, Admin.GetNetworkID,
      Admin.GetNetworkName, run_service]

/-- Claim C7: MemoryProfile and LockProfile are stateless with respect to
the profiler state machine: in every server state — the profiler Idle or
CPUProfiling — they leave the whole state unchanged and return success or
IOError exactly according to whether the target file can be created. -/
theorem C7_heap_lock_profiles_stateless (s : ServerState) (f : String)
    (rm : MemoryProfileReply) (rl : LockProfileReply) :
    (Admin.MemoryProfile s ⟨f⟩ rm).1 = s ∧
    (Admin.MemoryProfile s ⟨f⟩ rm).2.2 =
      (if f ∈ s.ioFail then some (.ioError f) else none) ∧
    (Admin.LockProfile s ⟨f⟩ rl).1 = s ∧
    (Admin.LockProfile s ⟨f⟩ rl).2.2 =
      (if f ∈ s.ioFail then some (.ioError f) else none) :=
  ⟨rfl, rfl, rfl, rfl⟩

/-- Claim C8: StartCPUProfiler, StopCPUProfiler, MemoryProfile,
LockProfile, and Alias set the reply's Success field to true before
invoking the collaborator, so the reply carries Success = true on every
input, error or not; AliasChain sets Success = true after the two chain
registrations but before the routing-table registration, so a call failing
only at that last step also reports Success = true. -/
theorem C8_success_preset (s : ServerState) :
    (∀ (f : String) (r : StartCPUProfilerReply),
      (Admin.StartCPUProfiler s ⟨f⟩ r).2.1.Success = true) ∧
    (∀ (r : StopCPUProfilerReply),
      (Admin.StopCPUProfiler s r).2.1.Success = true) ∧
    (∀ (f : String) (r : MemoryProfileReply),
      (Admin.MemoryProfile s ⟨f⟩ r).2.1.Success = true) ∧
    (∀ (f : String) (r : LockProfileReply),
      (Admin.LockProfile s ⟨f⟩ r).2.1.Success = true) ∧
    (∀ (ep a : String) (r : AliasReply),
      (Admin.Alias s ⟨ep, a⟩ r).2.1.Success = true) ∧
    (∀ (c a : String) (r : AliasChainReply) (cid : Nat) (cm : ChainManager),
      s.chainManager.Lookup c = (cid, none) →
      s.chainManager.Alias cid a = (cm, none) →
      (Admin.AliasChain s ⟨c, a⟩ r).2.1.Success = true) := by
  refine ⟨fun f r => rfl, fun r => rfl, fun f r => rfl, fun f r => rfl,
    fun ep a r => rfl, ?_⟩
  intro c a r cid cm h1 h2
  simp [Admin.AliasChain, h1, h2]

/-- Witness for claim C8: a Start whose file cannot be created still
reports Success = true beside its IOError, and the AliasChain call that
fails only at the routing-table step reports Success = true beside the
returned error. -/
theorem C8_witness :
    (Admin.StartCPUProfiler w0 ⟨"/bad.prof"⟩ ⟨false⟩).2.1.Success = true ∧
    (Admin.StartCPUProfiler w0 ⟨"/bad.prof"⟩ ⟨false⟩).2.2 =
      some (.ioError "/bad.prof") ∧
    (Admin.AliasChain w0 ⟨"C", "A"⟩ ⟨false⟩).2.1.Success = true ∧
    (Admin.AliasChain w0 ⟨"C", "A"⟩ ⟨false⟩).2.2 = some (.other 1) :=
  ⟨(C8_success_preset w0).1 "/bad.prof" ⟨false⟩,
   by decide,
   (C8_success_preset w0).2.2.2.2.2 "C" "A" ⟨false⟩ 42
      ⟨[("A", 42), ("C", 42), ("taken", 5)]⟩ (by decide) (by decide),
   by decide⟩

/-- Claim C9: GetBlockchainID writes the string rendering of the looked-up
identifier into the reply on every call; when the lookup fails, the reply
still carries the rendering of the zero-valued identifier returned
alongside the error rather than being left unset. -/
theorem C9_blockchain_id_always_written (s : ServerState) :
    (∀ (a : String) (r : GetBlockchainIDReply),
      (Admin.GetBlockchainID s ⟨a⟩ r).2.1.BlockchainID =
        idString (s.chainManager.Lookup a).1) ∧
    (∀ (a : String) (r : GetBlockchainIDReply) (e : Err),
      (s.chainManager.Lookup a).2 = some e →
      (Admin.GetBlockchainID s ⟨a⟩ r).2.1.BlockchainID = idString 0) := by
  refine ⟨fun a r => rfl, ?_⟩
  intro a r e h
  cases hfk : findKey s.chainManager.chainOf a with
  | none => simp [Admin.GetBlockchainID, ChainManager.Lookup, hfk]
  | some cid => simp [ChainManager.Lookup, hfk] at h

/-- Witness for claim C9 at a concrete failed lookup. -/
theorem C9_witness :
    (Admin.GetBlockchainID w0 ⟨"missing"⟩ ⟨""⟩).2.1.BlockchainID =
      idString 0 :=
  (C9_blockchain_id_always_written w0).2 "missing" ⟨""⟩ .notFound (by decide)

/-- Claim C10: no handler writes to any field of the Admin service struct:
after every single operation and after every sequence of operations,
successful or failed, the service struct equals its construction-time
value. -/
theorem C10_admin_struct_immutable :
    (∀ (s : ServerState) (op : AdminOp), (step s op).1.service = s.service) ∧
    (∀ (s : ServerState) (ops : List AdminOp),
      (run s ops).service = s.service) :=
  ⟨step_service, run_service⟩
